import Mathlib

/-!
Shallow embedding of the business logic of the `newlancuapp` order /
delivery-round / pricing API routes.

Each Next.js route handler (`src/app/api/precios/route.ts`,
`src/app/api/precios/[id]/route.ts`, `src/app/api/pedidos` collection and
`[id]` routes, `src/app/api/repartos` collection and `[id]` routes) is
translated into a pure Lean function from a database snapshot (plus the
session and the request body) to an HTTP status code and the resulting
database snapshot.  Prisma queries over the tables become list operations:
`findUnique`/`findFirst` become `List.find?`, `updateMany` becomes a
`List.map` guarded by the `where` predicate, `create` appends a row,
`delete` filters the row out.  JavaScript `Date` values are modelled as a
calendar day (`Nat`) together with a minute-of-day (`Fin 1440`), so that
the `setHours(0,0,0,0)` / `setHours(23,59,59,999)` day-window queries are
expressible exactly.
-/

namespace Lancu

/-- A timestamp: calendar day plus minute within the day (JS `Date`). -/
structure Fecha where
  dia : Nat
  hora : Fin 1440
deriving DecidableEq, Repr

/-- `a ≤ b` on timestamps, as the code's `gte`/`lte` comparisons. -/
def Fecha.ble (a b : Fecha) : Bool :=
  decide (a.dia < b.dia ∨ (a.dia = b.dia ∧ a.hora ≤ b.hora))

/-- `fecha.setHours(0,0,0,0)`: start of the calendar day. -/
def Fecha.startOfDay (a : Fecha) : Fecha := ⟨a.dia, 0⟩

/-- `fecha.setHours(23,59,59,999)`: end of the calendar day. -/
def Fecha.endOfDay (a : Fecha) : Fecha := ⟨a.dia, 1439⟩

/-- `a.toDateString() === b.toDateString()`: same calendar day. -/
def Fecha.sameDay (a b : Fecha) : Bool := a.dia == b.dia

/-- Order status enum (`PENDIENTE | ENTREGADO | CANCELADO`). -/
inductive EstadoPedido where
  | PENDIENTE
  | ENTREGADO
  | CANCELADO
deriving DecidableEq, Repr

/-- Price tier enum (`FABRICA | MAYORISTA | MINORISTA`). -/
inductive TipoPrecio where
  | FABRICA
  | MAYORISTA
  | MINORISTA
deriving DecidableEq, Repr

/-- Session role (`ADMIN | USER`). -/
inductive Role where
  | ADMIN
  | USER
deriving DecidableEq, Repr

/-- The authenticated session (`session.user`). -/
structure Session where
  role : Role
  clienteId : Option String
deriving DecidableEq, Repr

/-- A `Categoria` row (only the fields the handlers read). -/
structure Categoria where
  id : String
deriving DecidableEq, Repr

/-- A `Cliente` row (only the fields the handlers read). -/
structure Cliente where
  id : String
  zona : String
deriving DecidableEq, Repr

/-- A `Precio` row. -/
structure Precio where
  id : String
  tipo : TipoPrecio
  valor : Nat
  fechaInicio : Fecha
  fechaFin : Option Fecha
  activo : Bool
  categoriaId : String
deriving DecidableEq, Repr

/-- A `Reparto` (delivery round) row. -/
structure Reparto where
  id : String
  fecha : Fecha
  zona : String
  estado : Bool
  observacion : Option String
deriving DecidableEq, Repr

/-- A `PedidoItem` row (embedded in its order). -/
structure PedidoItem where
  productoId : String
  cantidad : Nat
  precio : Nat
  subtotal : Nat
deriving DecidableEq, Repr

/-- A `Pedido` (order) row with its items. -/
structure Pedido where
  id : String
  clienteId : String
  fecha : Fecha
  estado : EstadoPedido
  cobrado : Bool
  total : Nat
  observacion : Option String
  repartoId : Option String
  items : List PedidoItem
deriving DecidableEq, Repr

/-- The database snapshot: one list per table the handlers touch. -/
structure DB where
  categorias : List Categoria
  clientes : List Cliente
  precios : List Precio
  repartos : List Reparto
  pedidos : List Pedido
deriving DecidableEq, Repr

/-- `db.cliente.findUnique({where:{id}})`. -/
def DB.findCliente (db : DB) (cid : String) : Option Cliente :=
  db.clientes.find? fun c => c.id == cid

/-- `db.categoria.findUnique({where:{id}})`. -/
def DB.findCategoria (db : DB) (cid : String) : Option Categoria :=
  db.categorias.find? fun c => c.id == cid

/-- `db.precio.findUnique({where:{id}})`. -/
def DB.findPrecio (db : DB) (pid : String) : Option Precio :=
  db.precios.find? fun p => p.id == pid

/-- `db.reparto.findUnique({where:{id}})`. -/
def DB.findReparto (db : DB) (rid : String) : Option Reparto :=
  db.repartos.find? fun r => r.id == rid

/-- `db.pedido.findUnique({where:{id}})`. -/
def DB.findPedido (db : DB) (pid : String) : Option Pedido :=
  db.pedidos.find? fun p => p.id == pid

/-! ### Price routes (`/api/precios`, `/api/precios/[id]`) -/

/-- The zod `precioSchema` body after parsing. -/
structure PrecioBody where
  tipo : TipoPrecio
  valor : Nat
  fechaInicio : Fecha
  fechaFin : Option Fecha
  activo : Bool
  categoriaId : String
deriving DecidableEq, Repr

/-- The zod checks of `precioSchema` that rows can fail
(`valor` positive, `categoriaId` non-empty). -/
def precioBodyValid (b : PrecioBody) : Bool :=
  decide (0 < b.valor) && b.categoriaId != ""

/-- One row of the `updateMany` of POST `/api/precios`: deactivate an
active price of the given category and tier, setting its end date. -/
def deactPostStep (now : Fecha) (c : String) (t : TipoPrecio) (p : Precio) :
    Precio :=
  if p.categoriaId == c && p.tipo == t && p.activo then
    { p with activo := false, fechaFin := some now }
  else p

/-- The `updateMany` of POST `/api/precios`: deactivate every active price
of the given category and tier, setting its end date to `now`. -/
def deactivatePrecios (now : Fecha) (c : String) (t : TipoPrecio)
    (ps : List Precio) : List Precio :=
  ps.map (deactPostStep now c t)

/-- The row inserted by the `create` call of POST `/api/precios`. -/
def nuevoPrecio (newId : String) (body : PrecioBody) : Precio :=
  { id := newId, tipo := body.tipo, valor := body.valor,
    fechaInicio := body.fechaInicio, fechaFin := body.fechaFin,
    activo := body.activo, categoriaId := body.categoriaId }

/-- POST `/api/precios` (create a price). -/
def preciosPOST (s : Option Session) (now : Fecha) (db : DB)
    (body : PrecioBody) (newId : String) : Nat × DB :=
  match s with
  | none => (401, db)
  | some sess =>
    if sess.role != Role.ADMIN then (401, db)
    else if !precioBodyValid body then (400, db)
    else if (db.findCategoria body.categoriaId).isNone then (400, db)
    else
      let ps :=
        if body.activo then
          deactivatePrecios now body.categoriaId body.tipo db.precios
        else db.precios
      (201, { db with precios := ps ++ [nuevoPrecio newId body] })

/-- Overwrite a price row with the request body (the `update` call of PUT
`/api/precios/[id]`; the row id is untouched). -/
def updPrecio (body : PrecioBody) (p : Precio) : Precio :=
  { p with
    tipo := body.tipo,
    valor := body.valor,
    fechaInicio := body.fechaInicio,
    fechaFin := body.fechaFin,
    activo := body.activo,
    categoriaId := body.categoriaId }

/-- One row of the `updateMany` of PUT `/api/precios/[id]`: deactivate an
active price of the requested category and tier other than the updated
row itself. -/
def deactStep (now : Fecha) (id : String) (body : PrecioBody) (p : Precio) :
    Precio :=
  if p.categoriaId == body.categoriaId && p.tipo == body.tipo
      && p.activo && p.id != id then
    { p with activo := false, fechaFin := some now }
  else p

/-- One row of the final `update` of PUT `/api/precios/[id]`: replace the
row with the requested id. -/
def applyStep (id : String) (body : PrecioBody) (p : Precio) : Precio :=
  if p.id == id then updPrecio body p else p

/-- PUT `/api/precios/[id]` (update a price). -/
def preciosPUT (s : Option Session) (now : Fecha) (db : DB) (id : String)
    (body : PrecioBody) : Nat × DB :=
  match s with
  | none => (401, db)
  | some sess =>
    if sess.role != Role.ADMIN then (401, db)
    else
      match db.findPrecio id with
      | none => (404, db)
      | some old =>
        if !precioBodyValid body then (400, db)
        else if (db.findCategoria body.categoriaId).isNone then (400, db)
        else
          let ps :=
            if body.activo && (!old.activo || old.categoriaId != body.categoriaId)
            then db.precios.map (deactStep now id body)
            else db.precios
          (200, { db with precios := ps.map (applyStep id body) })

/-- Two price rows clash when both are active for the same (category,
tier) pair. -/
def activeClash (p q : Precio) : Prop :=
  p.activo = true ∧ q.activo = true ∧
    p.categoriaId = q.categoriaId ∧ p.tipo = q.tipo

instance (p q : Precio) : Decidable (activeClash p q) := by
  unfold activeClash
  infer_instance

/-- The pricing invariant: no two price rows are simultaneously active for
the same (category, tier) pair. -/
def uniqueActive (db : DB) : Prop :=
  db.precios.Pairwise fun p q => ¬ activeClash p q

instance (db : DB) : Decidable (uniqueActive db) := by
  unfold uniqueActive
  infer_instance

/-! ### Order routes (`/api/pedidos`, `/api/pedidos/[id]`) -/

/-- One item of the zod `pedidoSchema` body. -/
structure PedidoItemBody where
  productoId : String
  cantidad : Nat
  precio : Nat
  subtotal : Nat
deriving DecidableEq, Repr

/-- The zod `pedidoSchema` body after parsing. -/
structure PedidoBody where
  clienteId : String
  fecha : Fecha
  estado : EstadoPedido
  cobrado : Bool
  total : Nat
  observacion : Option String
  items : List PedidoItemBody
deriving DecidableEq, Repr

/-- The zod checks of `pedidoItemSchema`. -/
def pedidoItemValid (i : PedidoItemBody) : Bool :=
  i.productoId != "" && decide (0 < i.cantidad)
    && decide (0 < i.precio) && decide (0 < i.subtotal)

/-- The zod checks of `pedidoSchema`. -/
def pedidoBodyValid (b : PedidoBody) : Bool :=
  b.clienteId != "" && decide (0 < b.total)
    && !b.items.isEmpty && b.items.all pedidoItemValid

/-- Translate an item of the request body into a `PedidoItem` row. -/
def mkItem (i : PedidoItemBody) : PedidoItem :=
  { productoId := i.productoId, cantidad := i.cantidad,
    precio := i.precio, subtotal := i.subtotal }

/-- One step of the earliest-round scan: keep the matching round with the
smaller date (preferring the new candidate on ties). -/
def mejorReparto (p : Reparto → Bool) (r : Reparto) :
    Option Reparto → Option Reparto
  | none => if p r then some r else none
  | some b => if p r then (if Fecha.ble r.fecha b.fecha then some r else some b) else some b

/-- `findFirst({where, orderBy:{fecha:'asc'}})`: the member satisfying the
filter with the smallest `fecha` (first such member on ties). -/
def findEarliest (p : Reparto → Bool) : List Reparto → Option Reparto
  | [] => none
  | r :: rs => mejorReparto p r (findEarliest p rs)

/-- The filter of the auto-assignment query of POST `/api/pedidos`:
an active round for the client's zone dated now or later. -/
def repartoMatch (now : Fecha) (zona : String) (r : Reparto) : Bool :=
  Fecha.ble now r.fecha && r.zona == zona && r.estado

/-- POST `/api/pedidos` (create an order).  Returns the status, the new
database and the JSON payload (the created order) when created. -/
def pedidosPOST (s : Option Session) (now : Fecha) (db : DB)
    (body : PedidoBody) (newId : String) : Nat × DB × Option Pedido :=
  match s with
  | none => (401, db, none)
  | some sess =>
    if !pedidoBodyValid body then (400, db, none)
    else if sess.role != Role.ADMIN && sess.clienteId != some body.clienteId then
      (403, db, none)
    else
      match db.findCliente body.clienteId with
      | none => (400, db, none)
      | some cliente =>
        let reparto := findEarliest (repartoMatch now cliente.zona) db.repartos
        let nuevo : Pedido :=
          { id := newId, clienteId := body.clienteId, fecha := body.fecha,
            estado := body.estado, cobrado := body.cobrado,
            total := body.total, observacion := body.observacion,
            repartoId := reparto.map Reparto.id,
            items := body.items.map mkItem }
        (201, { db with pedidos := db.pedidos ++ [nuevo] }, some nuevo)

/-- The zod `pedidoUpdateSchema` body: every field optional; for nullable
fields the outer `Option` is presence, the inner one the value. -/
structure PedidoUpdateBody where
  estado : Option EstadoPedido
  cobrado : Option Bool
  observacion : Option (Option String)
  repartoId : Option (Option String)
deriving DecidableEq, Repr

/-- The JS truthiness test `if (validatedData.repartoId)`. -/
def repartoIdTruthy (b : PedidoUpdateBody) : Option String :=
  match b.repartoId with
  | some (some rid) => if rid != "" then some rid else none
  | _ => none

/-- Apply the partial update of PUT `/api/pedidos/[id]` to one row. -/
def applyPedidoUpdate (b : PedidoUpdateBody) (p : Pedido) : Pedido :=
  { p with
    estado := b.estado.getD p.estado,
    cobrado := b.cobrado.getD p.cobrado,
    observacion := b.observacion.getD p.observacion,
    repartoId := b.repartoId.getD p.repartoId }

/-- PUT `/api/pedidos/[id]` (partial order update). -/
def pedidosPUT (s : Option Session) (db : DB) (id : String)
    (body : PedidoUpdateBody) : Nat × DB :=
  match s with
  | none => (401, db)
  | some sess =>
    match db.findPedido id with
    | none => (404, db)
    | some pedidoExistente =>
      if sess.role != Role.ADMIN
          && sess.clienteId != some pedidoExistente.clienteId then
        (403, db)
      else
        let zonaCheck : Nat × Bool :=
          match repartoIdTruthy body with
          | none => (0, true)
          | some rid =>
            match db.findReparto rid with
            | none => (400, false)
            | some reparto =>
              match db.findCliente pedidoExistente.clienteId with
              | none => (500, false)
              | some cliente =>
                if reparto.zona != cliente.zona then (400, false)
                else (0, true)
        if !zonaCheck.2 then (zonaCheck.1, db)
        else
          (200, { db with pedidos := db.pedidos.map fun p =>
            if p.id == id then applyPedidoUpdate body p else p })

/-- DELETE `/api/pedidos/[id]` (cancel an order). -/
def pedidosDELETE (s : Option Session) (db : DB) (id : String) : Nat × DB :=
  match s with
  | none => (401, db)
  | some sess =>
    match db.findPedido id with
    | none => (404, db)
    | some pedidoExistente =>
      if sess.role != Role.ADMIN
          && sess.clienteId != some pedidoExistente.clienteId then
        (403, db)
      else if pedidoExistente.estado == EstadoPedido.ENTREGADO then (400, db)
      else
        (200, { db with pedidos := db.pedidos.map fun p =>
          if p.id == id then { p with estado := EstadoPedido.CANCELADO } else p })

/-! ### Delivery-round routes (`/api/repartos`, `/api/repartos/[id]`) -/

/-- The zod `repartoSchema` body after parsing. -/
structure RepartoBody where
  fecha : Fecha
  zona : String
  estado : Bool
  observacion : Option String
deriving DecidableEq, Repr

/-- The zod checks of `repartoSchema` (`zona` non-empty). -/
def repartoBodyValid (b : RepartoBody) : Bool :=
  b.zona != ""

/-- The duplicate-round filter: same zone, `fecha` within the calendar-day
window `[startOfDay, endOfDay]` of the requested date. -/
def duplicateRound (body : RepartoBody) (r : Reparto) : Bool :=
  r.zona == body.zona
    && Fecha.ble body.fecha.startOfDay r.fecha
    && Fecha.ble r.fecha body.fecha.endOfDay

/-- The bulk-assignment scan shared by round creation and zone change:
assign every unassigned PENDING order of a client in `zona` to round
`rid`.  (`clienteIds` is materialised first, as in the code; the
`length > 0` guard is observationally irrelevant since an empty id list
matches no order.) -/
def assignScan (db : DB) (zona : String) (rid : String)
    (ps : List Pedido) : List Pedido :=
  let clienteIds := (db.clientes.filter fun c => c.zona == zona).map Cliente.id
  if clienteIds.length > 0 then
    ps.map fun p =>
      if clienteIds.contains p.clienteId && p.repartoId == none
          && p.estado == EstadoPedido.PENDIENTE then
        { p with repartoId := some rid }
      else p
  else ps

/-- POST `/api/repartos` (create a round, then absorb matching orders). -/
def repartosPOST (s : Option Session) (db : DB) (body : RepartoBody)
    (newId : String) : Nat × DB :=
  match s with
  | none => (401, db)
  | some sess =>
    if sess.role != Role.ADMIN then (401, db)
    else if !repartoBodyValid body then (400, db)
    else if (db.repartos.find? (duplicateRound body)).isSome then (400, db)
    else
      let reparto : Reparto :=
        { id := newId, fecha := body.fecha, zona := body.zona,
          estado := body.estado, observacion := body.observacion }
      (201, { db with
        repartos := db.repartos ++ [reparto],
        pedidos := assignScan db body.zona newId db.pedidos })

/-- The unlink scan of a zone change: detach from round `rid` every order
whose client's zone is not the round's new zone (Prisma relation filter
`cliente: { zona: { not: zona } }`). -/
def unlinkScan (db : DB) (zona : String) (rid : String)
    (ps : List Pedido) : List Pedido :=
  ps.map fun p =>
    if p.repartoId == some rid
        && (match db.findCliente p.clienteId with
            | some c => c.zona != zona
            | none => false) then
      { p with repartoId := none }
    else p

/-- PUT `/api/repartos/[id]` (update a round; on zone change, unlink
mismatched orders then absorb newly matching ones). -/
def repartosPUT (s : Option Session) (db : DB) (id : String)
    (body : RepartoBody) : Nat × DB :=
  match s with
  | none => (401, db)
  | some sess =>
    if sess.role != Role.ADMIN then (401, db)
    else
      match db.findReparto id with
      | none => (404, db)
      | some repartoExistente =>
        if !repartoBodyValid body then (400, db)
        else if (!(Fecha.sameDay body.fecha repartoExistente.fecha)
              || body.zona != repartoExistente.zona)
            && (db.repartos.find? fun r =>
                  duplicateRound body r && r.id != id).isSome then
          (400, db)
        else
          let repartos := db.repartos.map fun r =>
            if r.id == id then
              { r with
                fecha := body.fecha,
                zona := body.zona,
                estado := body.estado,
                observacion := body.observacion }
            else r
          let pedidos :=
            if body.zona != repartoExistente.zona then
              assignScan db body.zona id (unlinkScan db body.zona id db.pedidos)
            else db.pedidos
          (200, { db with repartos := repartos, pedidos := pedidos })

/-- DELETE `/api/repartos/[id]` (unlink orders, then delete the round;
refused while a linked order is delivered). -/
def repartosDELETE (s : Option Session) (db : DB) (id : String) : Nat × DB :=
  match s with
  | none => (401, db)
  | some sess =>
    if sess.role != Role.ADMIN then (401, db)
    else
      match db.findReparto id with
      | none => (404, db)
      | some _ =>
        if (db.pedidos.filter fun p => p.repartoId == some id).any
            (fun p => p.estado == EstadoPedido.ENTREGADO) then
          (400, db)
        else
          (200, { db with
            pedidos := db.pedidos.map fun p =>
              if p.repartoId == some id then { p with repartoId := none } else p,
            repartos := db.repartos.filter fun r => r.id != id })

/-- The spec-side total of an order: the sum of the submitted subtotals. -/
def sumSubtotals (items : List PedidoItemBody) : Nat :=
  (items.map PedidoItemBody.subtotal).sum

/-! ### Concrete instances used by witnesses and counterexamples -/

/-- Minute zero of the day. -/
def hora0 : Fin 1440 := 0

/-- A reference "current instant". -/
def now0 : Fecha := ⟨100, hora0⟩

/-- An administrator session. -/
def sAdminW : Option Session := some ⟨Role.ADMIN, none⟩

/-- A client in zone NORTE. -/
def cliAcme : Cliente := ⟨"cl1", "NORTE"⟩

/-- A client in zone SUR. -/
def cliSur : Cliente := ⟨"cl2", "SUR"⟩

/-- A one-unit order item (price 5, subtotal 5). -/
def itemW : PedidoItemBody := ⟨"pr", 1, 5, 5⟩

/-- An active round in zone NORTE, the day after `now0`. -/
def rndNorte : Reparto := ⟨"r1", ⟨101, hora0⟩, "NORTE", true, none⟩

/-- A later active round in zone NORTE. -/
def rndNorteTarde : Reparto := ⟨"r2", ⟨105, hora0⟩, "NORTE", true, none⟩

/-- An active round in zone SUR. -/
def rndSur : Reparto := ⟨"rS", ⟨101, hora0⟩, "SUR", true, none⟩

/-- C1 scenario: a lone category, then two price creations and a
tier-changing price update. -/
def c1db0 : DB := ⟨[⟨"c"⟩], [], [], [], []⟩

/-- C1 scenario: a FABRICA-tier price body for category `c`. -/
def c1bodyA : PrecioBody := ⟨TipoPrecio.FABRICA, 1, now0, none, true, "c"⟩

/-- C1 scenario: a MAYORISTA-tier price body for category `c`. -/
def c1bodyB : PrecioBody := ⟨TipoPrecio.MAYORISTA, 1, now0, none, true, "c"⟩

/-- C1 scenario: state after creating price `p1` (FABRICA). -/
def c1paso1 : Nat × DB := preciosPOST sAdminW now0 c1db0 c1bodyA "p1"

/-- C1 scenario: state after creating price `p2` (MAYORISTA). -/
def c1paso2 : Nat × DB := preciosPOST sAdminW now0 c1paso1.2 c1bodyB "p2"

/-- C1 scenario: state after updating `p1` to tier MAYORISTA while it is
still active. -/
def c1paso3 : Nat × DB := preciosPUT sAdminW now0 c1paso2.2 "p1" c1bodyB

/-- A delivered order of client `cl1`, unassigned. -/
def pedEntregado : Pedido :=
  ⟨"o1", "cl1", now0, EstadoPedido.ENTREGADO, false, 5, none, none, [⟨"pr", 1, 5, 5⟩]⟩

/-- A cancelled order of client `cl1`, unassigned. -/
def pedCancelado : Pedido :=
  ⟨"o1", "cl1", now0, EstadoPedido.CANCELADO, false, 5, none, none, [⟨"pr", 1, 5, 5⟩]⟩

/-- A pending order of client `cl1` linked to round `r1`. -/
def pedNorte : Pedido :=
  ⟨"oN", "cl1", now0, EstadoPedido.PENDIENTE, false, 5, none, some "r1", [⟨"pr", 1, 5, 5⟩]⟩

/-- A pending unassigned order of client `cl2` (zone SUR). -/
def pedSur : Pedido :=
  ⟨"oS", "cl2", now0, EstadoPedido.PENDIENTE, false, 5, none, none, [⟨"pr", 1, 5, 5⟩]⟩

/-- A delivered order of client `cl1` linked to round `r1`. -/
def pedEntregadoEnRonda : Pedido :=
  ⟨"oD", "cl1", now0, EstadoPedido.ENTREGADO, false, 5, none, some "r1", [⟨"pr", 1, 5, 5⟩]⟩

/-- C3/C7 scenario databases: one client, one order. -/
def dbEntregado : DB := ⟨[], [cliAcme], [], [], [pedEntregado]⟩

/-- Database holding only the cancelled order. -/
def dbCancelado : DB := ⟨[], [cliAcme], [], [], [pedCancelado]⟩

/-- The PUT body `{ estado: 'CANCELADO' }`. -/
def bodyCancelar : PedidoUpdateBody := ⟨some EstadoPedido.CANCELADO, none, none, none⟩

/-- The PUT body `{ estado: 'ENTREGADO' }`. -/
def bodyEntregar : PedidoUpdateBody := ⟨some EstadoPedido.ENTREGADO, none, none, none⟩

/-- C2/C6 scenario: one client, two NORTE rounds (later one listed first). -/
def dbAcmeRondas : DB := ⟨[], [cliAcme], [], [rndNorteTarde, rndNorte], []⟩

/-- An order-creation body for client `cl1` whose submitted total (7)
differs from the sum of its item subtotals (5). -/
def bodyPedido7 : PedidoBody :=
  ⟨"cl1", now0, EstadoPedido.PENDIENTE, false, 7, none, [itemW]⟩

/-- C6 scenario: one client, no rounds. -/
def dbSoloAcme : DB := ⟨[], [cliAcme], [], [], []⟩

/-- C4 scenario: one NORTE round already exists. -/
def dbRondaNorte : DB := ⟨[], [cliAcme], [], [rndNorte], []⟩

/-- A round body clashing with `rndNorte` (same zone, same calendar day,
different minute). -/
def bodyRondaClash : RepartoBody := ⟨⟨101, ⟨30, by decide⟩⟩, "NORTE", true, none⟩

/-- C5 scenario: two clients, round `r1` in NORTE, one linked NORTE order
and one unassigned pending SUR order. -/
def dbZonas : DB := ⟨[], [cliAcme, cliSur], [], [rndNorte], [pedNorte, pedSur]⟩

/-- The zone-change body moving round `r1` to SUR. -/
def bodyRondaSur : RepartoBody := ⟨⟨101, hora0⟩, "SUR", true, none⟩

/-- C9 scenario: round `r1` with a delivered linked order. -/
def dbRondaEntregada : DB := ⟨[], [cliAcme], [], [rndNorte], [pedEntregadoEnRonda]⟩

/-- C9 scenario: round `r1` with only a pending linked order. -/
def dbRondaPendiente : DB := ⟨[], [cliAcme], [], [rndNorte], [pedNorte]⟩

/-- C8 scenario: the NORTE client's order with a SUR round available. -/
def dbZonaCruzada : DB := ⟨[], [cliAcme], [], [rndSur], [pedNorte]⟩

/-- The PUT body assigning round `rS`. -/
def bodyAsignarSur : PedidoUpdateBody := ⟨none, none, none, some (some "rS")⟩

/-- A USER session associated with an unrelated client. -/
def sOtroCliente : Option Session := some ⟨Role.USER, some "otro"⟩

/-- The empty database. -/
def dbVacio : DB := ⟨[], [], [], [], []⟩

/-! ### Helper lemmas -/

theorem Fecha.ble_iff {a b : Fecha} :
    Fecha.ble a b = true ↔ a.dia < b.dia ∨ (a.dia = b.dia ∧ a.hora ≤ b.hora) := by
  simp [Fecha.ble]

theorem Fecha.ble_refl (a : Fecha) : Fecha.ble a a = true := by
  simp [Fecha.ble_iff]

theorem Fecha.ble_total (a b : Fecha) :
    Fecha.ble a b = true ∨ Fecha.ble b a = true := by
  rw [Fecha.ble_iff, Fecha.ble_iff]
  rcases Nat.lt_trichotomy a.dia b.dia with h | h | h
  · exact Or.inl (Or.inl h)
  · rcases le_total a.hora b.hora with h2 | h2
    · exact Or.inl (Or.inr ⟨h, h2⟩)
    · exact Or.inr (Or.inr ⟨h.symm, h2⟩)
  · exact Or.inr (Or.inl h)

theorem Fecha.ble_trans {a b c : Fecha} (hab : Fecha.ble a b = true)
    (hbc : Fecha.ble b c = true) : Fecha.ble a c = true := by
  rw [Fecha.ble_iff] at hab hbc ⊢
  rcases hab with h1 | ⟨h1, h1h⟩ <;> rcases hbc with h2 | ⟨h2, h2h⟩
  · exact Or.inl (h1.trans h2)
  · exact Or.inl (h2 ▸ h1)
  · exact Or.inl (h1 ▸ h2)
  · exact Or.inr ⟨h1.trans h2, le_trans h1h h2h⟩

theorem Fecha.ble_antisymm {a b : Fecha} (hab : Fecha.ble a b = true)
    (hba : Fecha.ble b a = true) : a = b := by
  rw [Fecha.ble_iff] at hab hba
  obtain ⟨ad, ah⟩ := a
  obtain ⟨bd, bh⟩ := b
  simp only [Fecha.mk.injEq]
  simp only at hab hba
  constructor
  · omega
  · have hd : ad = bd := by omega
    subst hd
    rcases hab with h | ⟨-, h⟩
    · omega
    · rcases hba with h2 | ⟨-, h2⟩
      · omega
      · exact le_antisymm h h2

theorem findEarliest_some {p : Reparto → Bool} {l : List Reparto} {r : Reparto}
    (h : findEarliest p l = some r) : r ∈ l ∧ p r = true := by
  induction l generalizing r with
  | nil => simp [findEarliest] at h
  | cons x xs ih =>
    rw [findEarliest] at h
    cases hx : findEarliest p xs with
    | none =>
      rw [hx] at h
      simp only [mejorReparto] at h
      by_cases hpx : p x = true
      · rw [if_pos hpx] at h
        injection h with h2
        subst h2
        exact ⟨List.mem_cons_self x xs, hpx⟩
      · rw [if_neg hpx] at h
        exact absurd h (by simp)
    | some b =>
      rw [hx] at h
      simp only [mejorReparto] at h
      obtain ⟨hb1, hb2⟩ := ih hx
      by_cases hpx : p x = true
      · rw [if_pos hpx] at h
        by_cases hf : Fecha.ble x.fecha b.fecha = true
        · rw [if_pos hf] at h
          injection h with h2
          subst h2
          exact ⟨List.mem_cons_self x xs, hpx⟩
        · rw [if_neg hf] at h
          injection h with h2
          subst h2
          exact ⟨List.mem_cons_of_mem _ hb1, hb2⟩
      · rw [if_neg hpx] at h
        injection h with h2
        subst h2
        exact ⟨List.mem_cons_of_mem _ hb1, hb2⟩

theorem findEarliest_none {p : Reparto → Bool} {l : List Reparto}
    (h : findEarliest p l = none) : ∀ x ∈ l, p x = false := by
  induction l with
  | nil => simp
  | cons x xs ih =>
    rw [findEarliest] at h
    cases hx : findEarliest p xs with
    | none =>
      rw [hx] at h
      simp only [mejorReparto] at h
      intro y hy
      rcases List.mem_cons.mp hy with rfl | hy
      · by_cases hpx : p y = true
        · rw [if_pos hpx] at h
          exact absurd h (by simp)
        · simpa using hpx
      · exact ih hx y hy
    | some b =>
      rw [hx] at h
      simp only [mejorReparto] at h
      by_cases hpx : p x = true
      · rw [if_pos hpx] at h
        by_cases hf : Fecha.ble x.fecha b.fecha = true
        · rw [if_pos hf] at h
          exact absurd h (by simp)
        · rw [if_neg hf] at h
          exact absurd h (by simp)
      · rw [if_neg hpx] at h
        exact absurd h (by simp)

theorem findEarliest_min {p : Reparto → Bool} {l : List Reparto} {r : Reparto}
    (h : findEarliest p l = some r) :
    ∀ x ∈ l, p x = true → Fecha.ble r.fecha x.fecha = true := by
  induction l generalizing r with
  | nil => simp [findEarliest] at h
  | cons x xs ih =>
    rw [findEarliest] at h
    cases hx : findEarliest p xs with
    | none =>
      rw [hx] at h
      simp only [mejorReparto] at h
      by_cases hpx : p x = true
      · rw [if_pos hpx] at h
        injection h with h2
        subst h2
        intro y hy hpy
        rcases List.mem_cons.mp hy with rfl | hy
        · exact Fecha.ble_refl _
        · rw [findEarliest_none hx y hy] at hpy
          exact absurd hpy (by simp)
      · rw [if_neg hpx] at h
        exact absurd h (by simp)
    | some b =>
      rw [hx] at h
      simp only [mejorReparto] at h
      by_cases hpx : p x = true
      · rw [if_pos hpx] at h
        by_cases hf : Fecha.ble x.fecha b.fecha = true
        · rw [if_pos hf] at h
          injection h with h2
          subst h2
          intro y hy hpy
          rcases List.mem_cons.mp hy with rfl | hy
          · exact Fecha.ble_refl _
          · exact Fecha.ble_trans hf (ih hx y hy hpy)
        · rw [if_neg hf] at h
          injection h with h2
          subst h2
          intro y hy hpy
          rcases List.mem_cons.mp hy with rfl | hy
          · rcases Fecha.ble_total y.fecha b.fecha with h2 | h2
            · exact absurd h2 hf
            · exact h2
          · exact ih hx y hy hpy
      · rw [if_neg hpx] at h
        injection h with h2
        subst h2
        intro y hy hpy
        rcases List.mem_cons.mp hy with rfl | hy
        · exact absurd hpy hpx
        · exact ih hx y hy hpy

/-- If no member satisfies the filter, `findEarliest` finds nothing. -/
theorem findEarliest_eq_none {p : Reparto → Bool} {l : List Reparto}
    (h : ∀ x ∈ l, p x = false) : findEarliest p l = none := by
  cases hx : findEarliest p l with
  | none => rfl
  | some r =>
    obtain ⟨hmem, hpr⟩ := findEarliest_some hx
    rw [h r hmem] at hpr
    exact absurd hpr (by simp)

/-- Elements of a list whose mapped ids are distinct are determined by
their id. -/
theorem eq_of_nodup_ids {α : Type} {f : α → String} {l : List α} {a b : α}
    (hnd : (l.map f).Nodup) (ha : a ∈ l) (hb : b ∈ l) (hf : f a = f b) :
    a = b :=
  List.inj_on_of_nodup_map hnd ha hb hf

/-- An actor that is an admin or the order's own client passes the
permission test of the order routes. -/
theorem perm_false {s : Session} {cid : String}
    (hperm : s.role = Role.ADMIN ∨ s.clienteId = some cid) :
    (s.role != Role.ADMIN && s.clienteId != some cid) = false := by
  rcases hperm with h | h <;> simp [h]

/-! ### Claim theorems -/

/-- Claim C2 (confirmed): creating an order for a client in zone Z assigns
the earliest active round with zone Z and date at or after the current
instant, and leaves the order unassigned when no such round exists. -/
theorem c2_order_auto_assignment (s : Session) (now : Fecha) (db : DB)
    (body : PedidoBody) (newId : String) (cli : Cliente)
    (hperm : s.role = Role.ADMIN ∨ s.clienteId = some body.clienteId)
    (hvalid : pedidoBodyValid body = true)
    (hcli : db.findCliente body.clienteId = some cli) :
    (pedidosPOST (some s) now db body newId).1 = 201 ∧
    ∃ ped, (pedidosPOST (some s) now db body newId).2.2 = some ped ∧
      ped ∈ (pedidosPOST (some s) now db body newId).2.1.pedidos ∧
      ((∀ r ∈ db.repartos,
          ¬(Fecha.ble now r.fecha = true ∧ r.zona = cli.zona ∧ r.estado = true)) →
        ped.repartoId = none) ∧
      (∀ rBest ∈ db.repartos, Fecha.ble now rBest.fecha = true →
        rBest.zona = cli.zona → rBest.estado = true →
        (∀ r ∈ db.repartos, Fecha.ble now r.fecha = true → r.zona = cli.zona →
          r.estado = true → Fecha.ble rBest.fecha r.fecha = true ∧
            (r.fecha = rBest.fecha → r = rBest)) →
        ped.repartoId = some rBest.id) := by
  have hmatch : ∀ r : Reparto, repartoMatch now cli.zona r = true ↔
      (Fecha.ble now r.fecha = true ∧ r.zona = cli.zona ∧ r.estado = true) := by
    intro r
    simp [repartoMatch, and_assoc]
  cases hfe : findEarliest (repartoMatch now cli.zona) db.repartos with
  | none =>
    simp only [pedidosPOST, hvalid, Bool.not_true, Bool.false_eq_true, if_false,
      perm_false hperm, hcli, hfe, Option.map_none']
    refine ⟨trivial, _, rfl, ?_, ?_, ?_⟩
    · exact List.mem_append_right _ (List.mem_singleton.mpr rfl)
    · intro _
      rfl
    · intro rBest hmem hb hz he _
      have := findEarliest_none hfe rBest hmem
      rw [(hmatch rBest).mpr ⟨hb, hz, he⟩] at this
      exact absurd this (by simp)
  | some r0 =>
    obtain ⟨hr0mem, hr0p⟩ := findEarliest_some hfe
    obtain ⟨hr0b, hr0z, hr0e⟩ := (hmatch r0).mp hr0p
    simp only [pedidosPOST, hvalid, Bool.not_true, Bool.false_eq_true, if_false,
      perm_false hperm, hcli, hfe, Option.map_some']
    refine ⟨trivial, _, rfl, ?_, ?_, ?_⟩
    · exact List.mem_append_right _ (List.mem_singleton.mpr rfl)
    · intro hnone
      exact absurd ⟨hr0b, hr0z, hr0e⟩ (hnone r0 hr0mem)
    · intro rBest hmem hb hz he hmin
      have h1 : Fecha.ble r0.fecha rBest.fecha = true :=
        findEarliest_min hfe rBest hmem ((hmatch rBest).mpr ⟨hb, hz, he⟩)
      obtain ⟨h2, h3⟩ := hmin r0 hr0mem hr0b hr0z hr0e
      have : r0 = rBest := h3 (Fecha.ble_antisymm h1 h2 ▸ rfl)
      rw [this]

/-- Witness for C2 at the concrete scenario of §8 of the spec: client in
NORTE, two active NORTE rounds, the order is assigned the earlier one. -/
theorem c2_order_auto_assignment_witness :
    (pedidosPOST sAdminW now0 dbAcmeRondas bodyPedido7 "o2").1 = 201 :=
  (c2_order_auto_assignment ⟨Role.ADMIN, none⟩ now0 dbAcmeRondas bodyPedido7
    "o2" cliAcme (Or.inl rfl) (by decide) rfl).1

/-- Counterexample to claim C3: a PUT with body `{estado: 'CANCELADO'}` on
a DELIVERED order succeeds with 200 and sets the status to CANCELLED. -/
theorem c3_counterexample :
    (dbEntregado.findPedido "o1").map Pedido.estado = some EstadoPedido.ENTREGADO ∧
    (pedidosPUT sAdminW dbEntregado "o1" bodyCancelar).1 = 200 ∧
    ((pedidosPUT sAdminW dbEntregado "o1" bodyCancelar).2.findPedido "o1").map
        Pedido.estado = some EstadoPedido.CANCELADO := by
  decide

/-- Claim C3 as amended: the cancel endpoint (DELETE) rejects a DELIVERED
order with 400 and leaves the database unchanged; the update endpoint
(PUT), however, performs no lifecycle check, so DELIVERED to CANCELLED
remains reachable through it. -/
theorem c3_delivered_cancel_guard (s : Session) (db : DB) (id : String)
    (ped : Pedido) (hfind : db.findPedido id = some ped)
    (hperm : s.role = Role.ADMIN ∨ s.clienteId = some ped.clienteId)
    (hent : ped.estado = EstadoPedido.ENTREGADO) :
    pedidosDELETE (some s) db id = (400, db) := by
  simp [pedidosDELETE, hfind, perm_false hperm, hent]

/-- Witness for C3 (amended) at a delivered order. -/
theorem c3_delivered_cancel_guard_witness :
    pedidosDELETE sAdminW dbEntregado "o1" = (400, dbEntregado) :=
  c3_delivered_cancel_guard ⟨Role.ADMIN, none⟩ dbEntregado "o1" pedEntregado
    rfl (Or.inl rfl) rfl

/-- Counterexample to claim C7: a PUT with body `{estado: 'ENTREGADO'}` on
a CANCELLED (hence non-PENDING) order succeeds with 200 and sets the
status to DELIVERED. -/
theorem c7_counterexample :
    (dbCancelado.findPedido "o1").map Pedido.estado = some EstadoPedido.CANCELADO ∧
    (pedidosPUT sAdminW dbCancelado "o1" bodyEntregar).1 = 200 ∧
    ((pedidosPUT sAdminW dbCancelado "o1" bodyEntregar).2.findPedido "o1").map
        Pedido.estado = some EstadoPedido.ENTREGADO := by
  decide

/-- Claim C7 as amended: the update endpoint applies a requested DELIVERED
status without checking the current status; whenever the permission check
passes and no round is supplied, the update succeeds with 200 and the
order's status becomes DELIVERED, whatever it was before. -/
theorem c7_mark_delivered_unguarded (s : Session) (db : DB) (id : String)
    (ped : Pedido) (body : PedidoUpdateBody)
    (hfind : db.findPedido id = some ped)
    (hperm : s.role = Role.ADMIN ∨ s.clienteId = some ped.clienteId)
    (hest : body.estado = some EstadoPedido.ENTREGADO)
    (hrid : body.repartoId = none) :
    (pedidosPUT (some s) db id body).1 = 200 ∧
    ∃ q ∈ (pedidosPUT (some s) db id body).2.pedidos,
      q.id = id ∧ q.estado = EstadoPedido.ENTREGADO := by
  have hid : ped.id = id := by simpa using List.find?_some hfind
  have htr : repartoIdTruthy body = none := by simp [repartoIdTruthy, hrid]
  simp only [pedidosPUT, hfind, perm_false hperm, htr, Bool.not_true,
    Bool.false_eq_true, if_false]
  refine ⟨trivial, applyPedidoUpdate body ped, ?_, ?_, ?_⟩
  · have : (fun p => if p.id == id then applyPedidoUpdate body p else p) ped
        = applyPedidoUpdate body ped := by
      simp [hid]
    exact this ▸ List.mem_map_of_mem _ (List.mem_of_find?_eq_some hfind)
  · simp [applyPedidoUpdate, hid]
  · simp [applyPedidoUpdate, hest]

/-- Witness for C7 (amended): marking the cancelled order delivered. -/
theorem c7_mark_delivered_unguarded_witness :
    (pedidosPUT sAdminW dbCancelado "o1" bodyEntregar).1 = 200 :=
  (c7_mark_delivered_unguarded ⟨Role.ADMIN, none⟩ dbCancelado "o1"
    pedCancelado bodyEntregar rfl (Or.inl rfl) rfl rfl).1

/-- Claim C10 (confirmed): cancelling an already-CANCELLED order succeeds
with 200 and changes nothing — double cancel is an idempotent no-op. -/
theorem c10_double_cancel_idempotent (s : Session) (db : DB) (id : String)
    (ped : Pedido) (hnodup : (db.pedidos.map Pedido.id).Nodup)
    (hfind : db.findPedido id = some ped)
    (hperm : s.role = Role.ADMIN ∨ s.clienteId = some ped.clienteId)
    (hcanc : ped.estado = EstadoPedido.CANCELADO) :
    pedidosDELETE (some s) db id = (200, db) := by
  have hmem : ped ∈ db.pedidos := List.mem_of_find?_eq_some hfind
  have hid : ped.id = id := by simpa using List.find?_some hfind
  have hmap : (db.pedidos.map fun p =>
      if p.id == id then { p with estado := EstadoPedido.CANCELADO } else p)
      = db.pedidos := by
    have hcongr : ∀ p ∈ db.pedidos,
        (if p.id == id then { p with estado := EstadoPedido.CANCELADO } else p)
          = p := by
      intro p hp
      by_cases hpid : (p.id == id) = true
      · rw [if_pos hpid]
        have hpe : p = ped :=
          eq_of_nodup_ids hnodup hp hmem (by rw [hid]; simpa using hpid)
        subst hpe
        have hpc := hcanc
        obtain ⟨i, c, f, e, co, t, o, r, it⟩ := p
        simp only at hpc
        simp [hpc]
      · rw [if_neg hpid]
    rw [List.map_congr_left hcongr]
    exact List.map_id' db.pedidos
  have hne : (ped.estado == EstadoPedido.ENTREGADO) = false := by
    simp [hcanc]
  simp only [pedidosDELETE, hfind, perm_false hperm, hne, Bool.false_eq_true,
    if_false, Bool.not_true]
  rw [hmap]

/-- Witness for C10: double-cancelling the cancelled order is a no-op. -/
theorem c10_double_cancel_idempotent_witness :
    pedidosDELETE sAdminW dbCancelado "o1" = (200, dbCancelado) :=
  c10_double_cancel_idempotent ⟨Role.ADMIN, none⟩ dbCancelado "o1"
    pedCancelado (by decide) rfl (Or.inl rfl) rfl

/-- The code's calendar-day window query is exactly same-day equality. -/
theorem duplicateRound_iff (body : RepartoBody) (r : Reparto) :
    duplicateRound body r = true ↔
      r.zona = body.zona ∧ r.fecha.dia = body.fecha.dia := by
  have hlt : r.fecha.hora.val < 1440 := r.fecha.hora.isLt
  have h0 : ((0 : Fin 1440) : Nat) = 0 := rfl
  have h1439 : ((1439 : Fin 1440) : Nat) = 1439 := rfl
  simp only [duplicateRound, Bool.and_eq_true, beq_iff_eq, Fecha.ble,
    Fecha.startOfDay, Fecha.endOfDay, decide_eq_true_eq, Fin.le_def, h0, h1439]
  constructor
  · rintro ⟨⟨hz, h1⟩, h2⟩
    refine ⟨hz, ?_⟩
    omega
  · rintro ⟨hz, hdia⟩
    refine ⟨⟨hz, ?_⟩, ?_⟩ <;> omega

/-- Claim C4 (confirmed): creating a round clashing with an existing round
(same zone, same calendar day) is rejected with 400 and the database — in
particular every order's round link — is untouched; on update the
uniqueness probe excludes the round being updated, so an otherwise
clash-free update succeeds. -/
theorem c4_round_conflict :
    (∀ (s : Session) (db : DB) (body : RepartoBody) (newId : String),
      s.role = Role.ADMIN →
      (∃ r ∈ db.repartos, r.zona = body.zona ∧ r.fecha.dia = body.fecha.dia) →
      repartosPOST (some s) db body newId = (400, db)) ∧
    (∀ (s : Session) (db : DB) (id : String) (body : RepartoBody) (r0 : Reparto),
      s.role = Role.ADMIN → db.findReparto id = some r0 →
      repartoBodyValid body = true →
      (∀ r ∈ db.repartos, r.zona = body.zona → r.fecha.dia = body.fecha.dia →
        r.id = id) →
      (repartosPUT (some s) db id body).1 = 200) := by
  constructor
  · intro s db body newId hrole hdup
    obtain ⟨r, hrmem, hrz, hrd⟩ := hdup
    have hsome : (db.repartos.find? (duplicateRound body)).isSome := by
      rw [List.find?_isSome]
      exact ⟨r, hrmem, (duplicateRound_iff body r).mpr ⟨hrz, hrd⟩⟩
    by_cases hv : repartoBodyValid body = true
    · simp [repartosPOST, hrole, hv, hsome]
    · have hv' : repartoBodyValid body = false := by simpa using hv
      simp [repartosPOST, hrole, hv']
  · intro s db id body r0 hrole hfind hvalid hself
    have hdup : (db.repartos.find? fun r =>
        duplicateRound body r && r.id != id) = none := by
      rw [List.find?_eq_none]
      intro r hrmem
      simp only [Bool.and_eq_true, bne_iff_ne, ne_eq, not_and]
      intro hd hne
      obtain ⟨hz, hdia⟩ := (duplicateRound_iff body r).mp hd
      exact hne (hself r hrmem hz hdia)
    simp [repartosPUT, hrole, hfind, hvalid, hdup]

/-- Witness for C4: the clashing NORTE round is rejected on create, and
updating round `r1` onto its own (zone, day) succeeds. -/
theorem c4_round_conflict_witness :
    repartosPOST sAdminW dbRondaNorte bodyRondaClash "r9" = (400, dbRondaNorte) ∧
    (repartosPUT sAdminW dbRondaNorte "r1" bodyRondaClash).1 = 200 :=
  ⟨c4_round_conflict.1 ⟨Role.ADMIN, none⟩ dbRondaNorte bodyRondaClash "r9" rfl
      ⟨rndNorte, by decide, rfl, rfl⟩,
    c4_round_conflict.2 ⟨Role.ADMIN, none⟩ dbRondaNorte "r1" bodyRondaClash
      rndNorte rfl rfl (by decide) (by decide)⟩

/-- Claim C8 (confirmed): an order update supplying a round whose zone
differs from the client's zone is rejected with 400 leaving the database
unchanged, and an actor that is neither admin nor the order's client is
rejected with 403. -/
theorem c8_order_update_guards :
    (∀ (s : Session) (db : DB) (id : String) (ped : Pedido) (cli : Cliente)
        (body : PedidoUpdateBody) (rid : String) (r : Reparto),
      db.findPedido id = some ped →
      (s.role = Role.ADMIN ∨ s.clienteId = some ped.clienteId) →
      body.repartoId = some (some rid) → rid ≠ "" →
      db.findReparto rid = some r →
      db.findCliente ped.clienteId = some cli →
      r.zona ≠ cli.zona →
      pedidosPUT (some s) db id body = (400, db)) ∧
    (∀ (s : Session) (db : DB) (id : String) (ped : Pedido)
        (body : PedidoUpdateBody),
      db.findPedido id = some ped →
      s.role ≠ Role.ADMIN → s.clienteId ≠ some ped.clienteId →
      pedidosPUT (some s) db id body = (403, db)) := by
  constructor
  · intro s db id ped cli body rid r hfind hperm hbody hridne hr hcli hzone
    have htr : repartoIdTruthy body = some rid := by
      simp [repartoIdTruthy, hbody, hridne]
    have hzb : (r.zona != cli.zona) = true := by simpa using hzone
    simp [pedidosPUT, hfind, perm_false hperm, htr, hr, hcli, hzb]
  · intro s db id ped body hfind hrole hcid
    have hb : (s.role != Role.ADMIN && s.clienteId != some ped.clienteId)
        = true := by
      simp [hrole, hcid]
    simp [pedidosPUT, hfind, hb]

/-- Witness for C8: assigning the SUR round to the NORTE client's order is
rejected with 400, and a foreign USER session gets 403. -/
theorem c8_order_update_guards_witness :
    pedidosPUT sAdminW dbZonaCruzada "oN" bodyAsignarSur = (400, dbZonaCruzada) ∧
    pedidosPUT sOtroCliente dbZonaCruzada "oN" bodyAsignarSur
      = (403, dbZonaCruzada) :=
  ⟨c8_order_update_guards.1 ⟨Role.ADMIN, none⟩ dbZonaCruzada "oN" pedNorte
      cliAcme bodyAsignarSur "rS" rndSur rfl (Or.inl rfl) rfl (by decide)
      rfl rfl (by decide),
    c8_order_update_guards.2 ⟨Role.USER, some "otro"⟩ dbZonaCruzada "oN"
      pedNorte bodyAsignarSur rfl (by decide) (by decide)⟩

/-- Claim C9 (confirmed): deleting a round with a delivered linked order is
rejected with 400 and nothing changes; otherwise the deletion succeeds,
every linked order is unlinked (others untouched), and the round row is
gone. -/
theorem c9_round_delete (s : Session) (db : DB) (id : String) (r0 : Reparto)
    (hrole : s.role = Role.ADMIN) (hfind : db.findReparto id = some r0) :
    ((∃ p ∈ db.pedidos, p.repartoId = some id ∧ p.estado = EstadoPedido.ENTREGADO) →
      repartosDELETE (some s) db id = (400, db)) ∧
    ((∀ p ∈ db.pedidos, p.repartoId = some id → p.estado ≠ EstadoPedido.ENTREGADO) →
      (repartosDELETE (some s) db id).1 = 200 ∧
      (∀ p ∈ db.pedidos, ∃ q ∈ (repartosDELETE (some s) db id).2.pedidos,
        q.id = p.id ∧ (p.repartoId = some id → q.repartoId = none) ∧
        (p.repartoId ≠ some id → q = p)) ∧
      (∀ r ∈ (repartosDELETE (some s) db id).2.repartos, r.id ≠ id)) := by
  constructor
  · rintro ⟨p, hp, h1, h2⟩
    have hcheck : ((db.pedidos.filter fun p => p.repartoId == some id).any
        fun p => p.estado == EstadoPedido.ENTREGADO) = true := by
      rw [List.any_eq_true]
      exact ⟨p, List.mem_filter.mpr ⟨hp, by simp [h1]⟩, by simp [h2]⟩
    simp [repartosDELETE, hrole, hfind, hcheck]
  · intro h
    have hcheck : ((db.pedidos.filter fun p => p.repartoId == some id).any
        fun p => p.estado == EstadoPedido.ENTREGADO) = false := by
      rw [List.any_eq_false]
      intro p hp
      have hmem := List.mem_filter.mp hp
      have h1 : p.repartoId = some id := by simpa using hmem.2
      simpa using h p hmem.1 h1
    have hres : repartosDELETE (some s) db id =
        (200, { db with
          pedidos := db.pedidos.map fun p =>
            if p.repartoId == some id then { p with repartoId := none } else p,
          repartos := db.repartos.filter fun r => r.id != id }) := by
      simp [repartosDELETE, hrole, hfind, hcheck]
    rw [hres]
    refine ⟨rfl, ?_, ?_⟩
    · intro p hp
      refine ⟨(fun p => if p.repartoId == some id
          then { p with repartoId := none } else p) p,
        List.mem_map_of_mem _ hp, ?_, ?_, ?_⟩
      · by_cases h1 : (p.repartoId == some id) = true <;> simp [h1]
      · intro h1
        simp [h1]
      · intro h1
        have h1' : (p.repartoId == some id) = false := by simpa using h1
        simp [h1']
    · intro r hr
      have := List.mem_filter.mp hr
      simpa using this.2

/-- Witness for C9: the round with a delivered order is protected, the one
with only a pending order is deleted. -/
theorem c9_round_delete_witness :
    repartosDELETE sAdminW dbRondaEntregada "r1" = (400, dbRondaEntregada) ∧
    (repartosDELETE sAdminW dbRondaPendiente "r1").1 = 200 :=
  ⟨(c9_round_delete ⟨Role.ADMIN, none⟩ dbRondaEntregada "r1" rndNorte rfl
      rfl).1 ⟨pedEntregadoEnRonda, by decide, rfl, rfl⟩,
    ((c9_round_delete ⟨Role.ADMIN, none⟩ dbRondaPendiente "r1" rndNorte rfl
      rfl).2 (by decide)).1⟩

/-- Counterexample to claim C6: the created order's stored total is the
submitted total (7), not the total computed from the submitted items (5). -/
theorem c6_counterexample :
    (pedidosPOST sAdminW now0 dbSoloAcme bodyPedido7 "o9").1 = 201 ∧
    ((pedidosPOST sAdminW now0 dbSoloAcme bodyPedido7 "o9").2.2.map Pedido.total)
      = some 7 ∧
    sumSubtotals bodyPedido7.items = 5 ∧ (7 : Nat) ≠ 5 := by
  decide

/-- Claim C6 as amended: order creation is rejected with 400 (and creates
nothing) when the client does not exist; on success it responds 201 with
the created order, which carries the submitted items and the submitted
total — the total is stored as submitted, not recomputed from the items. -/
theorem c6_create_order (s : Session) (now : Fecha) (db : DB)
    (body : PedidoBody) (newId : String)
    (hperm : s.role = Role.ADMIN ∨ s.clienteId = some body.clienteId)
    (hvalid : pedidoBodyValid body = true) :
    (db.findCliente body.clienteId = none →
      pedidosPOST (some s) now db body newId = (400, db, none)) ∧
    (∀ cli, db.findCliente body.clienteId = some cli →
      (pedidosPOST (some s) now db body newId).1 = 201 ∧
      ∃ ped, (pedidosPOST (some s) now db body newId).2.2 = some ped ∧
        ped ∈ (pedidosPOST (some s) now db body newId).2.1.pedidos ∧
        ped.id = newId ∧ ped.clienteId = body.clienteId ∧
        ped.total = body.total ∧ ped.items = body.items.map mkItem) := by
  constructor
  · intro hnone
    simp [pedidosPOST, hvalid, perm_false hperm, hnone]
  · intro cli hcli
    simp only [pedidosPOST, hvalid, Bool.not_true, Bool.false_eq_true, if_false,
      perm_false hperm, hcli]
    exact ⟨trivial, _, rfl,
      List.mem_append_right _ (List.mem_singleton.mpr rfl), rfl, rfl, rfl, rfl⟩

/-- Witness for C6 (amended): missing client rejected; existing client
gets a 201. -/
theorem c6_create_order_witness :
    pedidosPOST sAdminW now0 dbVacio bodyPedido7 "o9" = (400, dbVacio, none) ∧
    (pedidosPOST sAdminW now0 dbSoloAcme bodyPedido7 "o9").1 = 201 :=
  ⟨(c6_create_order ⟨Role.ADMIN, none⟩ now0 dbVacio bodyPedido7 "o9"
      (Or.inl rfl) (by decide)).1 rfl,
    ((c6_create_order ⟨Role.ADMIN, none⟩ now0 dbSoloAcme bodyPedido7 "o9"
      (Or.inl rfl) (by decide)).2 cliAcme rfl).1⟩

/-- Membership of a client id in the bulk-assignment id scan is exactly a
zone match of the client found for that id (given distinct client ids). -/
theorem clienteIds_contains {db : DB} {zona cid : String} {c : Cliente}
    (hnodup : (db.clientes.map Cliente.id).Nodup)
    (hc : db.findCliente cid = some c) :
    ((db.clientes.filter fun x => x.zona == zona).map Cliente.id).contains cid
      = true ↔ c.zona = zona := by
  have hcm : c ∈ db.clientes := List.mem_of_find?_eq_some hc
  have hcid : c.id = cid := by simpa using List.find?_some hc
  constructor
  · intro hcont
    have hmem : cid ∈ (db.clientes.filter fun x => x.zona == zona).map
        Cliente.id := by
      simpa [List.elem_iff] using hcont
    obtain ⟨c', hc'mem, hc'id⟩ := List.mem_map.mp hmem
    have hc'f := List.mem_filter.mp hc'mem
    have hcc : c' = c := eq_of_nodup_ids hnodup hc'f.1 hcm (by rw [hc'id, hcid])
    rw [← hcc]
    simpa using hc'f.2
  · intro hz
    have hmem : c.id ∈ (db.clientes.filter fun x => x.zona == zona).map
        Cliente.id :=
      List.mem_map_of_mem _ (List.mem_filter.mpr ⟨hcm, by simp [hz]⟩)
    rw [hcid] at hmem
    simpa [List.elem_iff] using hmem

/-- Claim C5 (confirmed): a successful round update changing the zone
unlinks every order of the round whose client's zone is not the new zone,
and absorbs every unassigned pending order whose client's zone is the new
zone. -/
theorem c5_round_zone_change (s : Session) (db : DB) (id : String)
    (body : RepartoBody) (r0 : Reparto)
    (hrole : s.role = Role.ADMIN)
    (hfind : db.findReparto id = some r0)
    (hvalid : repartoBodyValid body = true)
    (hzona : body.zona ≠ r0.zona)
    (hnodup : (db.clientes.map Cliente.id).Nodup)
    (hnoclash : ∀ r ∈ db.repartos, r.zona = body.zona →
      r.fecha.dia = body.fecha.dia → r.id = id) :
    (repartosPUT (some s) db id body).1 = 200 ∧
    ∀ p ∈ db.pedidos, ∃ q ∈ (repartosPUT (some s) db id body).2.pedidos,
      q.id = p.id ∧
      ∀ c, db.findCliente p.clienteId = some c →
        (c.zona ≠ body.zona → p.repartoId = some id → q.repartoId = none) ∧
        (c.zona = body.zona → p.repartoId = none →
          p.estado = EstadoPedido.PENDIENTE → q.repartoId = some id) := by
  have hdup : (db.repartos.find? fun r =>
      duplicateRound body r && r.id != id) = none := by
    rw [List.find?_eq_none]
    intro r hrmem
    simp only [Bool.and_eq_true, bne_iff_ne, ne_eq, not_and]
    intro hd hne
    obtain ⟨hz, hdia⟩ := (duplicateRound_iff body r).mp hd
    exact hne (hnoclash r hrmem hz hdia)
  have hzb : (body.zona != r0.zona) = true := by simpa using hzona
  have hres : repartosPUT (some s) db id body =
      (200, { db with
        repartos := db.repartos.map fun r =>
          if r.id == id then
            { r with
              fecha := body.fecha,
              zona := body.zona,
              estado := body.estado,
              observacion := body.observacion }
          else r,
        pedidos := assignScan db body.zona id
          (unlinkScan db body.zona id db.pedidos) }) := by
    simp [repartosPUT, hrole, hfind, hvalid, hdup, hzb]
  rw [hres]
  refine ⟨rfl, ?_⟩
  intro p hp
  simp only [assignScan, unlinkScan]
  set fFn : Pedido → Pedido := fun p =>
    if p.repartoId == some id
        && (match db.findCliente p.clienteId with
            | some c => c.zona != body.zona
            | none => false) then
      { p with repartoId := none }
    else p with hfFn
  set ids := (db.clientes.filter fun c => c.zona == body.zona).map Cliente.id
    with hids
  set gFn : Pedido → Pedido := fun p =>
    if ids.contains p.clienteId && p.repartoId == none
        && p.estado == EstadoPedido.PENDIENTE then
      { p with repartoId := some id }
    else p with hgFn
  by_cases hlen : ids.length > 0
  · rw [if_pos hlen]
    refine ⟨gFn (fFn p), List.mem_map_of_mem _ (List.mem_map_of_mem _ hp),
      ?_, ?_⟩
    · by_cases h1 : (p.repartoId == some id
          && (match db.findCliente p.clienteId with
              | some c => c.zona != body.zona
              | none => false)) = true
      · have hf : fFn p = { p with repartoId := none } := by
          rw [hfFn]
          exact if_pos h1
        rw [hf]
        by_cases h2 : (ids.contains p.clienteId && (none : Option String) == none
            && p.estado == EstadoPedido.PENDIENTE) = true
        · have hg : gFn { p with repartoId := none }
              = { p with repartoId := some id } := by
            rw [hgFn]
            exact if_pos h2
          rw [hg]
        · have hg : gFn { p with repartoId := none }
              = { p with repartoId := none } := by
            rw [hgFn]
            exact if_neg h2
          rw [hg]
      · have hf : fFn p = p := by
          rw [hfFn]
          exact if_neg h1
        rw [hf]
        by_cases h2 : (ids.contains p.clienteId && p.repartoId == none
            && p.estado == EstadoPedido.PENDIENTE) = true
        · have hg : gFn p = { p with repartoId := some id } := by
            rw [hgFn]
            exact if_pos h2
          rw [hg]
        · have hg : gFn p = p := by
            rw [hgFn]
            exact if_neg h2
          rw [hg]
    · intro c hc
      constructor
      · intro hcz hpr
        have hcontains : ids.contains p.clienteId = false := by
          rw [hids]
          by_cases hcont : ((db.clientes.filter fun x => x.zona == body.zona).map
              Cliente.id).contains p.clienteId = true
          · exact absurd ((clienteIds_contains hnodup hc).mp hcont) hcz
          · simpa using hcont
        have hmatchc : (match db.findCliente p.clienteId with
            | some c => c.zona != body.zona
            | none => false) = true := by
          rw [hc]
          simpa using hcz
        have hf : fFn p = { p with repartoId := none } := by
          rw [hfFn]
          refine if_pos ?_
          simp [hpr, hmatchc]
        rw [hf]
        have hnotmem : p.clienteId ∉ ids := by
          simpa [List.elem_iff] using hcontains
        have hg : gFn { p with repartoId := none }
            = { p with repartoId := none } := by
          rw [hgFn]
          refine if_neg ?_
          simp [hnotmem]
        rw [hg]
      · intro hcz hpr hpe
        have hcontains : ids.contains p.clienteId = true := by
          rw [hids]
          exact (clienteIds_contains hnodup hc).mpr hcz
        have hmem : p.clienteId ∈ ids := by
          simpa [List.elem_iff] using hcontains
        have hf : fFn p = p := by
          rw [hfFn]
          refine if_neg ?_
          simp [hpr]
        rw [hf]
        have hg : gFn p = { p with repartoId := some id } := by
          rw [hgFn]
          refine if_pos ?_
          simp [hmem, hpr, hpe]
        rw [hg]
  · rw [if_neg hlen]
    refine ⟨fFn p, List.mem_map_of_mem _ hp, ?_, ?_⟩
    · by_cases h1 : (p.repartoId == some id
          && (match db.findCliente p.clienteId with
              | some c => c.zona != body.zona
              | none => false)) = true
      · have hf : fFn p = { p with repartoId := none } := by
          rw [hfFn]
          exact if_pos h1
        rw [hf]
      · have hf : fFn p = p := by
          rw [hfFn]
          exact if_neg h1
        rw [hf]
    · intro c hc
      constructor
      · intro hcz hpr
        have hmatchc : (match db.findCliente p.clienteId with
            | some c => c.zona != body.zona
            | none => false) = true := by
          rw [hc]
          simpa using hcz
        have hf : fFn p = { p with repartoId := none } := by
          rw [hfFn]
          refine if_pos ?_
          simp [hpr, hmatchc]
        rw [hf]
      · intro hcz hpr hpe
        exfalso
        have hcontains : ids.contains p.clienteId = true := by
          rw [hids]
          exact (clienteIds_contains hnodup hc).mpr hcz
        have : p.clienteId ∈ ids := by
          simpa [List.elem_iff] using hcontains
        exact hlen (List.length_pos.mpr (List.ne_nil_of_mem this))

/-- Witness for C5: moving round `r1` from NORTE to SUR succeeds. -/
theorem c5_round_zone_change_witness :
    (repartosPUT sAdminW dbZonas "r1" bodyRondaSur).1 = 200 :=
  (c5_round_zone_change ⟨Role.ADMIN, none⟩ dbZonas "r1" bodyRondaSur rndNorte
    rfl rfl (by decide) (by decide) (by decide) (by decide)).1

/-! ### Claim C1: the one-active-price-per-tier invariant -/

theorem deactPostStep_cases (now : Fecha) (c : String) (t : TipoPrecio)
    (p : Precio) :
    deactPostStep now c t p = p ∨
      deactPostStep now c t p
        = { p with activo := false, fechaFin := some now } := by
  unfold deactPostStep
  by_cases h : (p.categoriaId == c && p.tipo == t && p.activo) = true
  · right
    rw [if_pos h]
  · left
    rw [if_neg h]

theorem deactStep_cases (now : Fecha) (id : String) (body : PrecioBody)
    (p : Precio) :
    deactStep now id body p = p ∨
      deactStep now id body p
        = { p with activo := false, fechaFin := some now } := by
  unfold deactStep
  by_cases h : (p.categoriaId == body.categoriaId && p.tipo == body.tipo
      && p.activo && p.id != id) = true
  · right
    rw [if_pos h]
  · left
    rw [if_neg h]

theorem deactStep_id (now : Fecha) (id : String) (body : PrecioBody)
    (p : Precio) : (deactStep now id body p).id = p.id := by
  rcases deactStep_cases now id body p with h | h <;> rw [h]

/-- Deactivating rows never creates an active clash. -/
theorem clash_of_deact {now : Fecha} {f : Precio → Precio}
    (hf : ∀ p, f p = p ∨ f p = { p with activo := false, fechaFin := some now })
    {a b : Precio} (hab : ¬ activeClash a b) :
    ¬ activeClash (f a) (f b) := by
  rintro ⟨h1, h2, h3, h4⟩
  rcases hf a with ha | ha
  · rcases hf b with hb | hb
    · rw [ha] at h1 h3 h4
      rw [hb] at h2 h3 h4
      exact hab ⟨h1, h2, h3, h4⟩
    · rw [hb] at h2
      simp at h2
  · rw [ha] at h1
    simp at h1

/-- After the POST deactivation scan no row of the scanned category and
tier is still active. -/
theorem deactivatePrecios_mem_spec (now : Fecha) (c : String) (t : TipoPrecio)
    (ps : List Precio) :
    ∀ q ∈ deactivatePrecios now c t ps,
      ¬(q.activo = true ∧ q.categoriaId = c ∧ q.tipo = t) := by
  intro q hq
  obtain ⟨p, hp, hpq⟩ := List.mem_map.mp hq
  subst hpq
  rintro ⟨h1, h2, h3⟩
  unfold deactPostStep at h1 h2 h3
  by_cases hcond : (p.categoriaId == c && p.tipo == t && p.activo) = true
  · rw [if_pos hcond] at h1
    simp at h1
  · rw [if_neg hcond] at h1 h2 h3
    exact hcond (by simp [h1, h2, h3])

/-- The PUT deactivation scan deactivates every matching active row other
than the updated one. -/
theorem deactStep_kills (now : Fecha) (id : String) (body : PrecioBody)
    (p : Precio) (hcat : p.categoriaId = body.categoriaId)
    (htipo : p.tipo = body.tipo) (hact : p.activo = true)
    (hne : ¬ p.id = id) :
    deactStep now id body p
      = { p with activo := false, fechaFin := some now } := by
  unfold deactStep
  refine if_pos ?_
  simp [hcat, htipo, hact, hne]

/-- POST `/api/precios` preserves the one-active-price invariant. -/
theorem preciosPOST_preserves (s : Option Session) (now : Fecha) (db : DB)
    (body : PrecioBody) (newId : String) (hU : uniqueActive db) :
    uniqueActive (preciosPOST s now db body newId).2 := by
  cases s with
  | none => simpa [preciosPOST] using hU
  | some sess =>
    by_cases h1 : (sess.role != Role.ADMIN) = true
    · simpa [preciosPOST, h1] using hU
    have h1' : (sess.role != Role.ADMIN) = false := by simpa using h1
    by_cases h2 : precioBodyValid body = true
    case neg =>
      have h2' : precioBodyValid body = false := by simpa using h2
      simpa [preciosPOST, h1', h2'] using hU
    by_cases h3 : (db.findCategoria body.categoriaId).isNone = true
    case pos => simpa [preciosPOST, h1', h2, h3] using hU
    have h3' : (db.findCategoria body.categoriaId).isNone = false :=
      Bool.eq_false_iff.mpr h3
    have hres : (preciosPOST (some sess) now db body newId).2 =
        { db with precios :=
          (if body.activo
           then deactivatePrecios now body.categoriaId body.tipo db.precios
           else db.precios) ++ [nuevoPrecio newId body] } := by
      simp [preciosPOST, h1', h2, h3']
    have hgoal : uniqueActive (preciosPOST (some sess) now db body newId).2 ↔
        ((if body.activo
          then deactivatePrecios now body.categoriaId body.tipo db.precios
          else db.precios) ++ [nuevoPrecio newId body]).Pairwise
          (fun p q => ¬ activeClash p q) := by
      rw [hres]
      exact Iff.rfl
    rw [hgoal]
    have hU' : db.precios.Pairwise fun p q => ¬ activeClash p q := hU
    rw [List.pairwise_append]
    refine ⟨?_, by simp, ?_⟩
    · by_cases hact : body.activo = true
      · rw [if_pos hact]
        unfold deactivatePrecios
        rw [List.pairwise_map]
        exact hU'.imp fun hab =>
          clash_of_deact (deactPostStep_cases now body.categoriaId body.tipo) hab
      · rw [if_neg hact]
        exact hU'
    · intro a ha b hb
      rw [List.mem_singleton] at hb
      subst hb
      rintro ⟨ha1, hb1, hcat, htipo⟩
      by_cases hact : body.activo = true
      · rw [if_pos hact] at ha
        exact deactivatePrecios_mem_spec now body.categoriaId body.tipo
          db.precios a ha
          ⟨ha1, by simpa [nuevoPrecio] using hcat,
            by simpa [nuevoPrecio] using htipo⟩
      · have hact' : body.activo = false := by simpa using hact
        exact absurd hb1 (by simp [nuevoPrecio, hact'])

/-- When POST `/api/precios` succeeds with an active body, every
previously active price of that category and tier appears afterwards
deactivated with its end date set to `now`. -/
theorem preciosPOST_deactivates (s : Option Session) (now : Fecha) (db : DB)
    (body : PrecioBody) (newId : String) (p : Precio)
    (h201 : (preciosPOST s now db body newId).1 = 201)
    (hact : body.activo = true) (hp : p ∈ db.precios)
    (hcat : p.categoriaId = body.categoriaId) (htipo : p.tipo = body.tipo)
    (hpact : p.activo = true) :
    { p with activo := false, fechaFin := some now }
      ∈ (preciosPOST s now db body newId).2.precios := by
  cases s with
  | none => simp [preciosPOST] at h201
  | some sess =>
    by_cases h1 : (sess.role != Role.ADMIN) = true
    · simp [preciosPOST, h1] at h201
    have h1' : (sess.role != Role.ADMIN) = false := by simpa using h1
    by_cases h2 : precioBodyValid body = true
    case neg =>
      have h2' : precioBodyValid body = false := by simpa using h2
      simp [preciosPOST, h1', h2'] at h201
    by_cases h3 : (db.findCategoria body.categoriaId).isNone = true
    case pos => simp [preciosPOST, h1', h2, h3] at h201
    have h3' : (db.findCategoria body.categoriaId).isNone = false :=
      Bool.eq_false_iff.mpr h3
    have hres : (preciosPOST (some sess) now db body newId).2.precios =
        (if body.activo
         then deactivatePrecios now body.categoriaId body.tipo db.precios
         else db.precios) ++ [nuevoPrecio newId body] := by
      simp [preciosPOST, h1', h2, h3']
    rw [hres, if_pos hact]
    refine List.mem_append_left _ ?_
    unfold deactivatePrecios
    have hstep : deactPostStep now body.categoriaId body.tipo p
        = { p with activo := false, fechaFin := some now } := by
      unfold deactPostStep
      refine if_pos ?_
      simp [hcat, htipo, hpact]
    exact hstep ▸ List.mem_map_of_mem _ hp

/-- PUT `/api/precios/[id]` preserves the one-active-price invariant as
long as it does not change the tier of a price that stays active in the
same category. -/
theorem preciosPUT_preserves (s : Option Session) (now : Fecha) (db : DB)
    (id : String) (body : PrecioBody) (old : Precio)
    (hnd : (db.precios.map Precio.id).Nodup)
    (hfind : db.findPrecio id = some old)
    (hH : body.activo = true → old.activo = true →
      old.categoriaId = body.categoriaId → old.tipo = body.tipo)
    (hU : uniqueActive db) :
    uniqueActive (preciosPUT s now db id body).2 := by
  cases s with
  | none => simpa [preciosPUT] using hU
  | some sess =>
    by_cases h1 : (sess.role != Role.ADMIN) = true
    · simpa [preciosPUT, h1] using hU
    have h1' : (sess.role != Role.ADMIN) = false := by simpa using h1
    by_cases h2 : precioBodyValid body = true
    case neg =>
      have h2' : precioBodyValid body = false := by simpa using h2
      simpa [preciosPUT, h1', hfind, h2'] using hU
    by_cases h3 : (db.findCategoria body.categoriaId).isNone = true
    case pos => simpa [preciosPUT, h1', hfind, h2, h3] using hU
    have h3' : (db.findCategoria body.categoriaId).isNone = false :=
      Bool.eq_false_iff.mpr h3
    have hres : (preciosPUT (some sess) now db id body).2 =
        { db with precios :=
          (if body.activo && (!old.activo || old.categoriaId != body.categoriaId)
           then db.precios.map (deactStep now id body)
           else db.precios).map (applyStep id body) } := by
      simp [preciosPUT, h1', hfind, h2, h3']
    have hgoal : uniqueActive (preciosPUT (some sess) now db id body).2 ↔
        ((if body.activo && (!old.activo || old.categoriaId != body.categoriaId)
          then db.precios.map (deactStep now id body)
          else db.precios).map (applyStep id body)).Pairwise
          (fun p q => ¬ activeClash p q) := by
      rw [hres]
      exact Iff.rfl
    rw [hgoal]
    have hU' : db.precios.Pairwise fun p q => ¬ activeClash p q := hU
    have hids : db.precios.Pairwise fun a b => a.id ≠ b.id :=
      List.pairwise_map.mp hnd
    have hpair := hU'.and hids
    have hold_mem : old ∈ db.precios := List.mem_of_find?_eq_some hfind
    have hold_id : old.id = id := by simpa using List.find?_some hfind
    by_cases hbr : (body.activo
        && (!old.activo || old.categoriaId != body.categoriaId)) = true
    · rw [if_pos hbr, List.map_map, List.pairwise_map]
      refine hpair.imp_of_mem ?_
      intro a b ha hb hR
      obtain ⟨hab, hne⟩ := hR
      simp only [Function.comp_apply]
      by_cases haid : (a.id == id) = true
      · have haid' : a.id = id := by simpa using haid
        by_cases hbid : (b.id == id) = true
        · exact absurd (haid'.trans (by simpa using hbid : b.id = id).symm) hne
        · have hda : deactStep now id body a = a := by
            unfold deactStep
            refine if_neg ?_
            simp [haid']
          have hua : applyStep id body a = updPrecio body a := by
            unfold applyStep
            exact if_pos haid
          have hub : applyStep id body (deactStep now id body b)
              = deactStep now id body b := by
            unfold applyStep
            refine if_neg ?_
            simp [deactStep_id, (by simpa using hbid : ¬ b.id = id)]
          rw [hda, hua, hub]
          rintro ⟨q1, q2, q3, q4⟩
          rcases deactStep_cases now id body b with hdb | hdb
          · rw [hdb] at q2 q3 q4
            have hkill := deactStep_kills now id body b
              (by simpa [updPrecio] using q3.symm)
              (by simpa [updPrecio] using q4.symm) q2
              (by simpa using hbid)
            rw [hdb] at hkill
            have hbf : b.activo = false := by rw [hkill]
            rw [hbf] at q2
            exact absurd q2 (by simp)
          · rw [hdb] at q2
            simp at q2
      · by_cases hbid : (b.id == id) = true
        · have hbid' : b.id = id := by simpa using hbid
          have hdb : deactStep now id body b = b := by
            unfold deactStep
            refine if_neg ?_
            simp [hbid']
          have hub : applyStep id body b = updPrecio body b := by
            unfold applyStep
            exact if_pos hbid
          have hua : applyStep id body (deactStep now id body a)
              = deactStep now id body a := by
            unfold applyStep
            refine if_neg ?_
            simp [deactStep_id, (by simpa using haid : ¬ a.id = id)]
          rw [hdb, hub, hua]
          rintro ⟨q1, q2, q3, q4⟩
          rcases deactStep_cases now id body a with hda | hda
          · rw [hda] at q1 q3 q4
            have hkill := deactStep_kills now id body a
              (by simpa [updPrecio] using q3)
              (by simpa [updPrecio] using q4) q1
              (by simpa using haid)
            rw [hda] at hkill
            have haf : a.activo = false := by rw [hkill]
            rw [haf] at q1
            exact absurd q1 (by simp)
          · rw [hda] at q1
            simp at q1
        · have hua : applyStep id body (deactStep now id body a)
              = deactStep now id body a := by
            unfold applyStep
            refine if_neg ?_
            simp [deactStep_id, (by simpa using haid : ¬ a.id = id)]
          have hub : applyStep id body (deactStep now id body b)
              = deactStep now id body b := by
            unfold applyStep
            refine if_neg ?_
            simp [deactStep_id, (by simpa using hbid : ¬ b.id = id)]
          rw [hua, hub]
          exact clash_of_deact (deactStep_cases now id body) hab
    · rw [if_neg hbr, List.pairwise_map]
      have hcase : body.activo = true →
          old.activo = true ∧ old.categoriaId = body.categoriaId := by
        intro hact
        rw [hact] at hbr
        simpa using hbr
      refine hpair.imp_of_mem ?_
      intro a b ha hb hR
      obtain ⟨hab, hne⟩ := hR
      by_cases haid : (a.id == id) = true
      · have haid' : a.id = id := by simpa using haid
        by_cases hbid : (b.id == id) = true
        · exact absurd (haid'.trans (by simpa using hbid : b.id = id).symm) hne
        · have hua : applyStep id body a = updPrecio body a := by
            unfold applyStep
            exact if_pos haid
          have hub : applyStep id body b = b := by
            unfold applyStep
            exact if_neg hbid
          rw [hua, hub]
          rintro ⟨q1, q2, q3, q4⟩
          have hact : body.activo = true := by simpa [updPrecio] using q1
          obtain ⟨holda, holdc⟩ := hcase hact
          have holdt : old.tipo = body.tipo := hH hact holda holdc
          have haold : a = old :=
            eq_of_nodup_ids hnd ha hold_mem (by rw [haid', hold_id])
          refine hab ⟨?_, q2, ?_, ?_⟩
          · rw [haold]
            exact holda
          · rw [haold, holdc]
            simpa [updPrecio] using q3
          · rw [haold, holdt]
            simpa [updPrecio] using q4
      · by_cases hbid : (b.id == id) = true
        · have hbid' : b.id = id := by simpa using hbid
          have hua : applyStep id body a = a := by
            unfold applyStep
            exact if_neg haid
          have hub : applyStep id body b = updPrecio body b := by
            unfold applyStep
            exact if_pos hbid
          rw [hua, hub]
          rintro ⟨q1, q2, q3, q4⟩
          have hact : body.activo = true := by simpa [updPrecio] using q2
          obtain ⟨holda, holdc⟩ := hcase hact
          have holdt : old.tipo = body.tipo := hH hact holda holdc
          have hbold : b = old :=
            eq_of_nodup_ids hnd hb hold_mem (by rw [hbid', hold_id])
          refine hab ⟨q1, ?_, ?_, ?_⟩
          · rw [hbold]
            exact holda
          · rw [hbold, holdc]
            simpa [updPrecio] using q3
          · rw [hbold, holdt]
            simpa [updPrecio] using q4
        · have hua : applyStep id body a = a := by
            unfold applyStep
            exact if_neg haid
          have hub : applyStep id body b = b := by
            unfold applyStep
            exact if_neg hbid
          rw [hua, hub]
          exact hab

/-- Counterexample to claim C1: starting from a single category and no
prices, two successful price creations (tiers FABRICA and MAYORISTA) and
one successful price update that switches the still-active `p1` to tier
MAYORISTA leave two active MAYORISTA prices for the category. -/
theorem c1_counterexample :
    uniqueActive c1db0 ∧ c1paso1.1 = 201 ∧ c1paso2.1 = 201 ∧
    c1paso3.1 = 200 ∧ ¬ uniqueActive c1paso3.2 := by
  decide

/-- Claim C1 as amended: price creation always preserves the
one-active-price-per-(category, tier) invariant and deactivates (with end
date `now`) every previously active price of the submitted category and
tier; price update preserves the invariant provided it does not keep a
price active while changing its tier within the same category — the
unguarded case shown by the counterexample. -/
theorem c1_one_active_price_per_tier :
    (∀ (s : Option Session) (now : Fecha) (db : DB) (body : PrecioBody)
        (newId : String), uniqueActive db →
      uniqueActive (preciosPOST s now db body newId).2 ∧
      (∀ p ∈ db.precios, (preciosPOST s now db body newId).1 = 201 →
        body.activo = true → p.categoriaId = body.categoriaId →
        p.tipo = body.tipo → p.activo = true →
        { p with activo := false, fechaFin := some now }
          ∈ (preciosPOST s now db body newId).2.precios)) ∧
    (∀ (s : Option Session) (now : Fecha) (db : DB) (id : String)
        (body : PrecioBody) (old : Precio),
      (db.precios.map Precio.id).Nodup →
      db.findPrecio id = some old →
      (body.activo = true → old.activo = true →
        old.categoriaId = body.categoriaId → old.tipo = body.tipo) →
      uniqueActive db → uniqueActive (preciosPUT s now db id body).2) :=
  ⟨fun s now db body newId hU =>
    ⟨preciosPOST_preserves s now db body newId hU,
      fun p hp h201 hact hcat htipo hpact =>
        preciosPOST_deactivates s now db body newId p h201 hact hp hcat
          htipo hpact⟩,
    fun s now db id body old hnd hfind hH hU =>
      preciosPUT_preserves s now db id body old hnd hfind hH hU⟩

/-- Witness for C1 (amended): one creation and one tier-preserving update
starting from the single-category database. -/
theorem c1_one_active_price_per_tier_witness :
    uniqueActive (preciosPOST sAdminW now0 c1db0 c1bodyA "p1").2 ∧
    uniqueActive (preciosPUT sAdminW now0 c1paso1.2 "p1" c1bodyA).2 :=
  ⟨(c1_one_active_price_per_tier.1 sAdminW now0 c1db0 c1bodyA "p1"
      (by decide)).1,
    c1_one_active_price_per_tier.2 sAdminW now0 c1paso1.2 "p1" c1bodyA
      ⟨"p1", TipoPrecio.FABRICA, 1, now0, none, true, "c"⟩ (by decide)
      (by decide) (fun _ _ _ => rfl) (by decide)⟩

end Lancu
